import Mathlib

/-!
# Verification of the go-client-classifier fingerprint core

Shallow embedding of the repository's fingerprint canonicalization and
classification engine:

* `internal/fingerprint/ja4h.go` — the JA4H-equivalent HTTP fingerprint
  encoder (`JA4H`, `JA4H_a` … `JA4H_d` and their helpers);
* `internal/fingerprint/signals.go` — signal extraction
  (`ExtractSignals`, `extractJA4HSignals`, `checkJA4HConsistency`,
  `calculateScores`, the user-agent pattern tables);
* `internal/classifier/classifier.go` — the classifier
  (`Classify`, `calculateConfidence`, reason strings).

Conventions of the embedding:

* Go strings are modelled by Lean `String` (a list of characters).  Go
  indexes and slices strings by byte; all positional slicing performed by
  the code happens on ASCII data (method codes, version codes, digits,
  flags), where bytes and characters coincide.  Hashing converts a string
  to its UTF-8 bytes explicitly, as Go's `[]byte(s)` does.
* `http.Header` (a map from canonical header name to values, of which the
  code only ever reads the first) is modelled as an association list
  `List (String × String)` in iteration order; Go map keys are unique, and
  canonicalization makes distinct keys distinct case-insensitively, which
  appears as a `Nodup` hypothesis where a result depends on it.  `Get` is
  modelled as a case-insensitive first lookup.
* `req.Cookies()` (the cookies parsed from the `Cookie` header) is modelled
  as an explicit association list carried by the request.
* Machine integers (`int`) are modelled as `Int`; the 32-bit words of
  SHA-256 as `Nat` reduced modulo `2^32`; `float64` arithmetic of the
  confidence computation as exact rational arithmetic over `ℚ`.
-/

namespace GoClassifier

/-! ## String utilities shared by the embedding -/

/-- UTF-8 encoding of one character, as byte values. -/
def charUtf8 (c : Char) : List Nat :=
  let n := c.toNat
  if n < 0x80 then [n]
  else if n < 0x800 then [0xc0 + n / 64, 0x80 + n % 64]
  else if n < 0x10000 then [0xe0 + n / 4096, 0x80 + (n / 64) % 64, 0x80 + n % 64]
  else [0xf0 + n / 262144, 0x80 + (n / 4096) % 64, 0x80 + (n / 64) % 64, 0x80 + n % 64]

/-- The UTF-8 bytes of a string, i.e. Go's `[]byte(s)`. -/
def utf8Bytes (s : String) : List Nat :=
  (s.data.map charUtf8).flatten

/-- Does `s` contain `pat` as a contiguous run?  Go's `strings.Contains`. -/
def containsList (pat : List Char) : List Char → Bool
  | [] => pat.isEmpty
  | c :: t => pat.isPrefixOf (c :: t) || containsList pat t

/-- Go `strings.Contains s sub`. -/
def strContains (s sub : String) : Bool :=
  containsList sub.data s.data

/-- Go `strings.ToLower` (character-wise; ASCII on all inputs the code
lowercases). -/
def toLowerStr (s : String) : String := ⟨s.data.map Char.toLower⟩

/-- Go `strings.Split s sep` for a single-character separator, on the
character list.  Always returns at least one (possibly empty) piece. -/
def splitChar (sep : Char) : List Char → List (List Char)
  | [] => [[]]
  | c :: rest =>
    let r := splitChar sep rest
    if c = sep then [] :: r
    else (c :: r.headD []) :: r.tailD []

/-- Go `strings.Split s sep` for a single-character separator. -/
def splitStr (sep : Char) (s : String) : List String :=
  (splitChar sep s.data).map (fun l => ⟨l⟩)

/-- Lexicographic comparison of character lists by code point.  On
UTF-8 encoded strings this coincides with Go's bytewise string order,
since UTF-8 preserves code-point order. -/
def lexLe : List Char → List Char → Bool
  | [], _ => true
  | _ :: _, [] => false
  | a :: as, b :: bs =>
    if a.toNat < b.toNat then true
    else if b.toNat < a.toNat then false
    else lexLe as bs

/-- Go string `≤`. -/
def strLeB (a b : String) : Bool := lexLe a.data b.data

/-- Go `sort.Strings`: bytewise-lexicographic ascending sort. -/
def sortStrings (l : List String) : List String :=
  l.insertionSort (fun a b => strLeB a b = true)

/-! ## SHA-256 (as used by `truncatedSHA256` in ja4h.go)

A direct executable implementation over `Nat`, every word reduced
modulo `2 ^ 32`. -/

/-- Reduce to a 32-bit word. -/
def w32 (n : Nat) : Nat := n % 4294967296

/-- Right rotation of a 32-bit word. -/
def rotr (x n : Nat) : Nat := w32 ((x >>> n) ||| (x <<< (32 - n)))

def bSig0 (x : Nat) : Nat := rotr x 2 ^^^ rotr x 13 ^^^ rotr x 22
def bSig1 (x : Nat) : Nat := rotr x 6 ^^^ rotr x 11 ^^^ rotr x 25
def sSig0 (x : Nat) : Nat := rotr x 7 ^^^ rotr x 18 ^^^ (x >>> 3)
def sSig1 (x : Nat) : Nat := rotr x 17 ^^^ rotr x 19 ^^^ (x >>> 10)

/-- SHA-256 round constants. -/
def sha256K : List Nat :=
  [1116352408, 1899447441, 3049323471, 3921009573,
   961987163, 1508970993, 2453635748, 2870763221,
   3624381080, 310598401, 607225278, 1426881987,
   1925078388, 2162078206, 2614888103, 3248222580,
   3835390401, 4022224774, 264347078, 604807628,
   770255983, 1249150122, 1555081692, 1996064986,
   2554220882, 2821834349, 2952996808, 3210313671,
   3336571891, 3584528711, 113926993, 338241895,
   666307205, 773529912, 1294757372, 1396182291,
   1695183700, 1986661051, 2177026350, 2456956037,
   2730485921, 2820302411, 3259730800, 3345764771,
   3516065817, 3600352804, 4094571909, 275423344,
   430227734, 506948616, 659060556, 883997877,
   958139571, 1322822218, 1537002063, 1747873779,
   1955562222, 2024104815, 2227730452, 2361852424,
   2428436474, 2756734187, 3204031479, 3329325298]

/-- SHA-256 initial hash state. -/
def sha256H0 : List Nat :=
  [1779033703, 3144134277, 1013904242, 2773480762,
   1359893119, 2600822924, 528734635, 1541459225]

/-- Big-endian 8-byte encoding of a natural number. -/
def lenBytes8 (n : Nat) : List Nat :=
  [n >>> 56 % 256, n >>> 48 % 256, n >>> 40 % 256, n >>> 32 % 256,
   n >>> 24 % 256, n >>> 16 % 256, n >>> 8 % 256, n % 256]

/-- SHA-256 padding: append `0x80`, zero bytes to 56 mod 64, then the
bit length as 8 bytes big-endian. -/
def sha256Pad (msg : List Nat) : List Nat :=
  let len := msg.length
  msg ++ [0x80] ++ List.replicate ((119 - len % 64) % 64) 0 ++ lenBytes8 (8 * len)

/-- Group bytes into big-endian 32-bit words. -/
def bytesToWords : List Nat → List Nat
  | a :: b :: c :: d :: rest => (((a * 256 + b) * 256 + c) * 256 + d) :: bytesToWords rest
  | _ => []

/-- Message-schedule extension, operating on the reversed word list;
the counter is the number of words still to produce. -/
def extendW (rev : List Nat) : Nat → List Nat
  | 0 => rev
  | n + 1 =>
    extendW
      (w32 (sSig1 (rev.getD 1 0) + rev.getD 6 0 + sSig0 (rev.getD 14 0) + rev.getD 15 0)
        :: rev) n

/-- One round of the SHA-256 compression, on state `[a,b,c,d,e,f,g,h]`
with the pair (round constant, schedule word). -/
def compressStep (st : List Nat) (kw : Nat × Nat) : List Nat :=
  match st with
  | [a, b, c, d, e, f, g, h] =>
    let ch := (e &&& f) ^^^ ((4294967295 ^^^ e) &&& g)
    let maj := (a &&& b) ^^^ (a &&& c) ^^^ (b &&& c)
    let t1 := w32 (h + bSig1 e + ch + kw.1 + kw.2)
    let t2 := w32 (bSig0 a + maj)
    [w32 (t1 + t2), a, b, c, w32 (d + t1), e, f, g]
  | other => other

/-- Compress one 64-byte block into the running hash state. -/
def compressBlock (h : List Nat) (block : List Nat) : List Nat :=
  let w := (extendW (bytesToWords block).reverse 48).reverse
  let st := (sha256K.zip w).foldl compressStep h
  (h.zip st).map (fun p => w32 (p.1 + p.2))

/-- Process `n` 64-byte blocks of `msg`. -/
def processBlocks (h : List Nat) (msg : List Nat) : Nat → List Nat
  | 0 => h
  | n + 1 => processBlocks (compressBlock h (msg.take 64)) (msg.drop 64) n

/-- SHA-256 of a byte sequence, as the 8 words of the digest. -/
def sha256Words (msg : List Nat) : List Nat :=
  let p := sha256Pad msg
  processBlocks sha256H0 p (p.length / 64)

/-- Lowercase hexadecimal digit. -/
def hexDigit (n : Nat) : Char :=
  if n < 10 then Char.ofNat (48 + n) else Char.ofNat (87 + n)

/-- The 8 hex digits of a 32-bit word, most significant first. -/
def wordHex (x : Nat) : List Char :=
  [hexDigit (x >>> 28 % 16), hexDigit (x >>> 24 % 16), hexDigit (x >>> 20 % 16),
   hexDigit (x >>> 16 % 16), hexDigit (x >>> 12 % 16), hexDigit (x >>> 8 % 16),
   hexDigit (x >>> 4 % 16), hexDigit (x % 16)]

/-- The 64-character lowercase hex digest of SHA-256 of a string,
Go's `fmt.Sprintf("%x", sha256.Sum256([]byte(data)))`. -/
def sha256Hex (data : String) : String :=
  ⟨((sha256Words (utf8Bytes data)).map wordHex).flatten⟩

/-- ja4h.go `truncatedSHA256`: first 12 hex characters of the digest. -/
def truncatedSHA256 (data : String) : String :=
  ⟨(sha256Hex data).data.take 12⟩

/-! ## The HTTP request as the JA4H encoder sees it

`ja4h.go` reads from `*http.Request`: the method, the protocol string
(`req.Proto`), the header map, and the cookies parsed from the `Cookie`
header (`req.Cookies()`). -/

/-- The slice of `http.Request` consumed by the JA4H encoder. -/
structure Request where
  Method : String
  Proto : String
  /-- Header map in iteration order: name (canonical form) and first value. -/
  headers : List (String × String)
  /-- The cookies parsed from the `Cookie` header, i.e. `req.Cookies()`. -/
  cookies : List (String × String)

/-- Go `http.Header.Get`: first value stored under the (canonicalized) name,
`""` when absent.  Canonical keys are matched case-insensitively. -/
def getHeader (headers : List (String × String)) (name : String) : String :=
  match headers.find? (fun p => toLowerStr p.1 == toLowerStr name) with
  | some p => p.2
  | none => ""

/-! ## ja4h.go -/

/-- ja4h.go `httpMethodCode`: first 2 lowercase characters of the HTTP
method, right-padded with `'0'`. -/
def httpMethodCode (method : String) : String :=
  let m := toLowerStr method
  if m.length < 2 then m ++ ⟨List.replicate (2 - m.length) '0'⟩
  else ⟨m.data.take 2⟩

/-- ja4h.go `httpVersionCode`: `"11"`, `"20"` or `"30"` from the protocol
string (`strings.Split(proto, "/")`, then the major-version digit). -/
def httpVersionCode (proto : String) : String :=
  let parts := splitStr '/' proto
  if parts.length ≠ 2 then "11"
  else
    let version := parts.getD 1 ""
    if "3".data.isPrefixOf version.data then "30"
    else if "2".data.isPrefixOf version.data then "20"
    else "11"

/-- ja4h.go `cookieFlag`: `"c"` when `req.Cookies()` is non-empty. -/
def cookieFlag (r : Request) : String :=
  if r.cookies.length > 0 then "c" else "n"

/-- ja4h.go `refererFlag`: `"r"` when the `Referer` header is non-empty. -/
def refererFlag (r : Request) : String :=
  if getHeader r.headers "Referer" ≠ "" then "r" else "n"

/-- ja4h.go `countHeaders`: header-map size minus the `Cookie` and
`Referer` entries, clamped to `[0, 99]`. -/
def countHeaders (headers : List (String × String)) : Nat :=
  let count : Int := (headers.length : Int)
    - (if getHeader headers "Cookie" ≠ "" then 1 else 0)
    - (if getHeader headers "Referer" ≠ "" then 1 else 0)
  if count > 99 then 99 else if count < 0 then 0 else count.toNat

/-- Go `if idx := strings.Index(l, c); idx > 0 { l = l[:idx] }`:
truncate before the first occurrence of `c`, but only when that
occurrence is at a positive index. -/
def cutAfter (c : Char) (l : List Char) : List Char :=
  match l.findIdx? (· = c) with
  | some i => if i > 0 then l.take i else l
  | none => l

/-- ja4h.go `languageCode`: first 4 characters of the primary
`Accept-Language` token, hyphens stripped, lowercased, `'0'`-padded;
`"0000"` when the header is missing or empty. -/
def languageCode (headers : List (String × String)) : String :=
  let lang := getHeader headers "Accept-Language"
  if lang = "" then "0000"
  else
    let l := cutAfter ',' lang.data
    let l := cutAfter ';' l
    let l := (l.filter (· ≠ '-')).map Char.toLower
    let l := if l.length < 4 then l ++ List.replicate (4 - l.length) '0' else l
    ⟨l.take 4⟩

/-- Go's `%02d` for the (clamped) header count. -/
def fmt02d (n : Nat) : String :=
  if n < 10 then "0" ++ toString n else toString n

/-- ja4h.go `JA4H_a`:
`{method}{version}{cookie}{referer}{header_count}{language}`. -/
def JA4H_a (r : Request) : String :=
  httpMethodCode r.Method ++ httpVersionCode r.Proto ++ cookieFlag r
    ++ refererFlag r ++ fmt02d (countHeaders r.headers) ++ languageCode r.headers

/-- Twelve `'0'` characters. -/
def zeros12 : String := "000000000000"

/-- ja4h.go `JA4H_b`: truncated SHA-256 over sorted header names
(`Cookie`/`Referer` excluded case-insensitively) joined by `","`,
concatenated with the non-empty values fetched in sorted-name order and
joined by `","`.  An empty header map short-circuits to twelve zeros. -/
def JA4H_b (r : Request) : String :=
  if r.headers.length = 0 then zeros12
  else
    let names := sortStrings ((r.headers.map Prod.fst).filter
      (fun n => toLowerStr n ≠ "cookie" ∧ toLowerStr n ≠ "referer"))
    let values := (names.map (getHeader r.headers)).filter (· ≠ "")
    truncatedSHA256 (String.intercalate "," names ++ String.intercalate "," values)

/-- ja4h.go `JA4H_c`: truncated SHA-256 over sorted cookie names joined
by `","`; twelve zeros when there are no cookies. -/
def JA4H_c (r : Request) : String :=
  if r.cookies.length = 0 then zeros12
  else truncatedSHA256 (String.intercalate "," (sortStrings (r.cookies.map Prod.fst)))

/-- ja4h.go `JA4H_d`: truncated SHA-256 over sorted `"name=value"` cookie
pairs joined by `","`; twelve zeros when there are no cookies. -/
def JA4H_d (r : Request) : String :=
  if r.cookies.length = 0 then zeros12
  else truncatedSHA256 (String.intercalate ","
    (sortStrings (r.cookies.map (fun c => c.1 ++ "=" ++ c.2))))

/-- ja4h.go `JA4H`: the four parts joined by `"_"`. -/
def JA4H (r : Request) : String :=
  JA4H_a r ++ "_" ++ JA4H_b r ++ "_" ++ JA4H_c r ++ "_" ++ JA4H_d r

/-! ## Data model (internal/fingerprint/types.go) -/

/-- The TLS-level fingerprint record, restricted to the fields the
signal extractor and scoring engine read. -/
structure TLSFingerprint where
  Version : String := ""
  ALPN : String := ""
  CipherSuitesCount : Int := 0
  ExtensionsCount : Int := 0
  SupportedGroups : List String := []
  HasSessionTicket : Bool := false
  JA3Hash : String := ""
  JA4Hash : String := ""
  Available : Bool := false

/-- The HTTP-level fingerprint record, restricted to the fields the
signal extractor and scoring engine read. -/
structure HTTPFingerprint where
  Version : String := ""
  Method : String := ""
  HeaderCount : Int := 0
  UserAgent : String := ""
  Accept : String := ""
  AcceptLang : String := ""
  AcceptEnc : String := ""
  SecFetchSite : String := ""
  SecFetchMode : String := ""
  SecFetchDest : String := ""
  SecChUA : String := ""
  HasCookies : Bool := false
  HasReferer : Bool := false
  JA4HHash : String := ""

/-- The aggregate fingerprint of one request. -/
structure Fingerprint where
  TLS : TLSFingerprint := {}
  HTTP : HTTPFingerprint := {}

/-- The extracted classification signals.  Defaults are Go zero values:
`Signals{}` starts all-false / empty / zero. -/
structure Signals where
  IsHTTP2 : Bool := false
  HasModernTLS : Bool := false
  HasALPN : Bool := false
  HighCipherCount : Bool := false
  HasSessionSupport : Bool := false
  HasTLSFingerprint : Bool := false
  HasMultipleGroups : Bool := false
  HasModernCiphers : Bool := false
  HasSecFetchHeaders : Bool := false
  HasAcceptLanguage : Bool := false
  HasUserAgent : Bool := false
  HasAccept : Bool := false
  HasAcceptEncoding : Bool := false
  HasSecClientHints : Bool := false
  HasJA4HFingerprint : Bool := false
  JA4HIsHTTP2 : Bool := false
  JA4HHasCookies : Bool := false
  JA4HHasReferer : Bool := false
  JA4HLowHeaderCount : Bool := false
  JA4HHighHeaderCount : Bool := false
  JA4HMissingLanguage : Bool := false
  JA4HLanguageCode : String := ""
  JA4HConsistentSignal : Bool := false
  UserAgentIsBot : Bool := false
  UserAgentIsAICrawler : Bool := false
  UserAgentIsBrowser : Bool := false
  LowHeaderCount : Bool := false
  HasBrowserHeaders : Bool := false
  MissingTypicalHeader : Bool := false
  BrowserScore : Int := 0
  BotScore : Int := 0
  ScoreBreakdown : String := ""

/-! ## signals.go -/

/-- signals.go `botPatterns`: known bot User-Agent substrings. -/
def botPatterns : List String :=
  ["curl", "wget", "python", "go-http-client", "httpie", "postman",
   "insomnia", "axios", "node-fetch", "undici", "got", "request",
   "scrapy", "httpx", "aiohttp", "okhttp", "apache-httpclient",
   "puppeteer", "playwright", "selenium", "phantomjs", "headless",
   "bot", "crawler", "spider", "scraper",
   "gptbot", "chatgpt", "claudebot", "claude-web", "anthropic",
   "google-extended", "googleother", "ccbot", "cohere-ai", "diffbot",
   "perplexitybot", "youbot", "ai2bot", "bytespider", "amazonbot",
   "applebot", "iaskspider", "phind",
   "meta-externalagent", "meta-externalfetcher", "facebookbot",
   "bingpreview"]

/-- signals.go `aiCrawlerPatterns`: AI/LLM-crawler User-Agent substrings. -/
def aiCrawlerPatterns : List String :=
  ["gptbot", "chatgpt", "claudebot", "claude-web", "anthropic",
   "google-extended", "perplexitybot", "cohere", "meta-external",
   "bytespider", "ccbot", "ai2bot", "youbot", "amazonbot"]

/-- signals.go `browserPatterns`: browser User-Agent substrings. -/
def browserPatterns : List String :=
  ["mozilla", "chrome", "safari", "firefox", "edge", "opera"]

/-- signals.go `containsAny`. -/
def containsAny (s : String) (substrs : List String) : Bool :=
  substrs.any (fun substr => strContains s substr)

/-- Go `s[i:j]` on an ASCII string. -/
def substr (s : String) (i j : Nat) : String :=
  ⟨(s.data.drop i).take (j - i)⟩

/-- signals.go `parseHeaderCount`: accumulate decimal digits, ignoring
any other character; the error result is always `nil`. -/
def parseHeaderCount (s : String) : Nat :=
  s.data.foldl (fun n c => if '0' ≤ c ∧ c ≤ '9' then n * 10 + (c.toNat - 48) else n) 0

/-- signals.go `checkJA4HConsistency`: `true` unless one of the four
JA4H-vs-observed comparisons disagrees. -/
def checkJA4HConsistency (s : Signals) (fp : Fingerprint) : Bool :=
  let consistent := true
  let consistent := if s.JA4HIsHTTP2 != s.IsHTTP2 then false else consistent
  let consistent := if s.JA4HHasCookies != fp.HTTP.HasCookies then false else consistent
  let consistent := if s.JA4HHasReferer != fp.HTTP.HasReferer then false else consistent
  let consistent := if s.JA4HMissingLanguage && s.HasAcceptLanguage then false else consistent
  consistent

/-- signals.go `extractJA4HSignals`: positional decode of part A of the
JA4H string, then the consistency check.  The Go function mutates the
JA4H fields of `s` in place, each assignment guarded by a length check;
each conditional field below renders one guarded assignment (the guards
touch pairwise distinct fields and read none of them, so the sequencing
is immaterial).  The consistency check at the end reads the updated
record. -/
def extractJA4HSignals (s : Signals) (ja4h : String) (fp : Fingerprint) : Signals :=
  let parts := splitStr '_' ja4h
  if parts.length < 1 ∨ (parts.headD "").length < 12 then s
  else
    let ja4hA := parts.headD ""
    let s1 := { s with
      JA4HIsHTTP2 := if ja4hA.length ≥ 4 then
          (substr ja4hA 2 4 == "20" || substr ja4hA 2 4 == "30")
        else s.JA4HIsHTTP2,
      JA4HHasCookies := if ja4hA.length ≥ 5 then substr ja4hA 4 5 == "c"
        else s.JA4HHasCookies,
      JA4HHasReferer := if ja4hA.length ≥ 6 then substr ja4hA 5 6 == "r"
        else s.JA4HHasReferer,
      JA4HLowHeaderCount := if ja4hA.length ≥ 8 then
          decide (parseHeaderCount (substr ja4hA 6 8) < 5)
        else s.JA4HLowHeaderCount,
      JA4HHighHeaderCount := if ja4hA.length ≥ 8 then
          decide (parseHeaderCount (substr ja4hA 6 8) ≥ 10)
        else s.JA4HHighHeaderCount,
      JA4HLanguageCode := if ja4hA.length ≥ 12 then substr ja4hA 8 12
        else s.JA4HLanguageCode,
      JA4HMissingLanguage := if ja4hA.length ≥ 12 then substr ja4hA 8 12 == "0000"
        else s.JA4HMissingLanguage }
    { s1 with JA4HConsistentSignal := checkJA4HConsistency s1 fp }

/-- signals.go `calculateScores`: the fixed weight table.  Each Go
`if cond { score += n; reasons = append(reasons, t) }` appears as one
guarded score update and one guarded trace update with the same
condition. -/
def calculateScores (s : Signals) (fp : Fingerprint) : Int × Int × String :=
  let browserScore : Int := 0
  let browserReasons : List String := []
  -- HTTP/2 - browsers prefer HTTP/2
  let browserScore := if s.IsHTTP2 then browserScore + 2 else browserScore
  let browserReasons := if s.IsHTTP2 then browserReasons ++ ["http2(+2)"] else browserReasons
  -- Sec-Fetch-* headers
  let browserScore := if s.HasSecFetchHeaders then browserScore + 3 else browserScore
  let browserReasons := if s.HasSecFetchHeaders then browserReasons ++ ["sec-fetch(+3)"] else browserReasons
  -- Accept-Language
  let browserScore := if s.HasAcceptLanguage then browserScore + 1 else browserScore
  let browserReasons := if s.HasAcceptLanguage then browserReasons ++ ["accept-lang(+1)"] else browserReasons
  -- Browser headers combination
  let browserScore := if s.HasBrowserHeaders then browserScore + 1 else browserScore
  let browserReasons := if s.HasBrowserHeaders then browserReasons ++ ["browser-headers(+1)"] else browserReasons
  -- User-Agent looks like browser (without bot patterns)
  let browserScore := if s.UserAgentIsBrowser && !s.UserAgentIsBot then browserScore + 2 else browserScore
  let browserReasons := if s.UserAgentIsBrowser && !s.UserAgentIsBot then browserReasons ++ ["browser-ua(+2)"] else browserReasons
  -- Sec-CH-UA client hints
  let browserScore := if s.HasSecClientHints then browserScore + 2 else browserScore
  let browserReasons := if s.HasSecClientHints then browserReasons ++ ["sec-ch-ua(+2)"] else browserReasons
  -- Cookies present
  let browserScore := if fp.HTTP.HasCookies then browserScore + 1 else browserScore
  let browserReasons := if fp.HTTP.HasCookies then browserReasons ++ ["cookies(+1)"] else browserReasons
  -- High header count
  let browserScore := if decide (fp.HTTP.HeaderCount ≥ 10) then browserScore + 1 else browserScore
  let browserReasons := if decide (fp.HTTP.HeaderCount ≥ 10) then browserReasons ++ ["headers>=10(+1)"] else browserReasons
  -- Modern TLS
  let browserScore := if s.HasModernTLS then browserScore + 1 else browserScore
  let browserReasons := if s.HasModernTLS then browserReasons ++ ["modern-tls(+1)"] else browserReasons
  -- TLS fingerprint signals (from ClientHello)
  let browserScore := if s.HasTLSFingerprint then
      let b := browserScore
      let b := if s.HighCipherCount then b + 2 else b
      let b := if s.HasSessionSupport then b + 1 else b
      let b := if s.HasMultipleGroups then b + 1 else b
      let b := if decide (fp.TLS.ExtensionsCount ≥ 10) then b + 1 else b
      b
    else browserScore
  let browserReasons := if s.HasTLSFingerprint then
      let l := browserReasons
      let l := if s.HighCipherCount then l ++ ["high-ciphers(+2)"] else l
      let l := if s.HasSessionSupport then l ++ ["session-ticket(+1)"] else l
      let l := if s.HasMultipleGroups then l ++ ["multi-groups(+1)"] else l
      let l := if decide (fp.TLS.ExtensionsCount ≥ 10) then l ++ ["tls-ext>=10(+1)"] else l
      l
    else browserReasons
  -- JA4H fingerprint signals (browser-positive)
  let browserScore := if s.HasJA4HFingerprint then
      let b := browserScore
      let b := if s.JA4HHighHeaderCount then b + 1 else b
      let b := if s.JA4HHasReferer then b + 1 else b
      let b := if s.JA4HConsistentSignal then b + 1 else b
      b
    else browserScore
  let browserReasons := if s.HasJA4HFingerprint then
      let l := browserReasons
      let l := if s.JA4HHighHeaderCount then l ++ ["ja4h-headers>=10(+1)"] else l
      let l := if s.JA4HHasReferer then l ++ ["ja4h-referer(+1)"] else l
      let l := if s.JA4HConsistentSignal then l ++ ["ja4h-consistent(+1)"] else l
      l
    else browserReasons
  -- Bot-positive signals
  let botScore : Int := 0
  let botReasons : List String := []
  let botScore := if s.UserAgentIsBot then botScore + 3 else botScore
  let botReasons := if s.UserAgentIsBot then botReasons ++ ["bot-ua(+3)"] else botReasons
  let botScore := if s.UserAgentIsAICrawler then botScore + 2 else botScore
  let botReasons := if s.UserAgentIsAICrawler then botReasons ++ ["ai-crawler(+2)"] else botReasons
  let botScore := if s.LowHeaderCount then botScore + 2 else botScore
  let botReasons := if s.LowHeaderCount then botReasons ++ ["low-headers(+2)"] else botReasons
  let botScore := if s.MissingTypicalHeader && !s.HasSecFetchHeaders then botScore + 1 else botScore
  let botReasons := if s.MissingTypicalHeader && !s.HasSecFetchHeaders then botReasons ++ ["missing-typical(+1)"] else botReasons
  let botScore := if !s.HasUserAgent then botScore + 2 else botScore
  let botReasons := if !s.HasUserAgent then botReasons ++ ["no-ua(+2)"] else botReasons
  let botScore := if !s.IsHTTP2 && fp.HTTP.Version == "HTTP/1.1" then botScore + 1 else botScore
  let botReasons := if !s.IsHTTP2 && fp.HTTP.Version == "HTTP/1.1" then botReasons ++ ["http1.1(+1)"] else botReasons
  let botScore := if fp.HTTP.Accept == "*/*" then botScore + 1 else botScore
  let botReasons := if fp.HTTP.Accept == "*/*" then botReasons ++ ["accept-*/*-(+1)"] else botReasons
  let botScore := if !s.HasAcceptLanguage && !s.HasSecFetchHeaders then botScore + 1 else botScore
  let botReasons := if !s.HasAcceptLanguage && !s.HasSecFetchHeaders then botReasons ++ ["no-accept-lang(+1)"] else botReasons
  -- TLS fingerprint signals indicating bot
  let botScore := if s.HasTLSFingerprint then
      let b := botScore
      let b := if decide (fp.TLS.CipherSuitesCount > 0) && decide (fp.TLS.CipherSuitesCount < 10) then b + 1 else b
      let b := if decide (fp.TLS.ExtensionsCount > 0) && decide (fp.TLS.ExtensionsCount < 8) then b + 1 else b
      let b := if !s.HasSessionSupport && fp.TLS.Available then b + 1 else b
      b
    else botScore
  let botReasons := if s.HasTLSFingerprint then
      let l := botReasons
      let l := if decide (fp.TLS.CipherSuitesCount > 0) && decide (fp.TLS.CipherSuitesCount < 10) then l ++ ["low-ciphers(+1)"] else l
      let l := if decide (fp.TLS.ExtensionsCount > 0) && decide (fp.TLS.ExtensionsCount < 8) then l ++ ["few-tls-ext(+1)"] else l
      let l := if !s.HasSessionSupport && fp.TLS.Available then l ++ ["no-session(+1)"] else l
      l
    else botReasons
  -- JA4H fingerprint signals (bot-positive)
  let botScore := if s.HasJA4HFingerprint then
      let b := botScore
      let b := if s.JA4HMissingLanguage then b + 1 else b
      let b := if s.JA4HLowHeaderCount then b + 1 else b
      let b := if !s.JA4HConsistentSignal then b + 2 else b
      b
    else botScore
  let botReasons := if s.HasJA4HFingerprint then
      let l := botReasons
      let l := if s.JA4HMissingLanguage then l ++ ["ja4h-no-lang(+1)"] else l
      let l := if s.JA4HLowHeaderCount then l ++ ["ja4h-low-headers(+1)"] else l
      let l := if !s.JA4HConsistentSignal then l ++ ["ja4h-inconsistent(+2)"] else l
      l
    else botReasons
  let breakdown := "BROWSER[" ++ String.intercalate " " browserReasons ++ "] "
    ++ "BOT[" ++ String.intercalate " " botReasons ++ "]"
  (browserScore, botScore, breakdown)

/-- signals.go `ExtractSignals`: derive all signals from a fingerprint,
then attach the scores and the trace. -/
def ExtractSignals (fp : Fingerprint) : Signals :=
  let s : Signals := {}
  -- TLS signals (from ClientHello fingerprint)
  let s := { s with
    IsHTTP2 := fp.HTTP.Version == "HTTP/2.0" || fp.TLS.ALPN == "h2",
    HasModernTLS := fp.TLS.Version == "TLS 1.2" || fp.TLS.Version == "TLS 1.3",
    HasALPN := fp.TLS.ALPN != "",
    HighCipherCount := decide (fp.TLS.CipherSuitesCount > 10),
    HasSessionSupport := fp.TLS.HasSessionTicket,
    HasTLSFingerprint := fp.TLS.JA3Hash != "" || fp.TLS.JA4Hash != "",
    HasMultipleGroups := decide (fp.TLS.SupportedGroups.length ≥ 3),
    HasModernCiphers := fp.TLS.Version == "TLS 1.3" && decide (fp.TLS.CipherSuitesCount > 0) }
  -- HTTP signals
  let s := { s with
    HasSecFetchHeaders := fp.HTTP.SecFetchSite != "" || fp.HTTP.SecFetchMode != ""
      || fp.HTTP.SecFetchDest != "",
    HasAcceptLanguage := fp.HTTP.AcceptLang != "",
    HasUserAgent := fp.HTTP.UserAgent != "",
    HasAccept := fp.HTTP.Accept != "",
    HasAcceptEncoding := fp.HTTP.AcceptEnc != "",
    HasSecClientHints := fp.HTTP.SecChUA != "" }
  -- JA4H signals (HTTP fingerprint)
  let s := { s with HasJA4HFingerprint := fp.HTTP.JA4HHash != "" }
  let s := if s.HasJA4HFingerprint then extractJA4HSignals s fp.HTTP.JA4HHash fp else s
  -- User-Agent analysis
  let uaLower := toLowerStr fp.HTTP.UserAgent
  let s := { s with
    UserAgentIsBot := containsAny uaLower botPatterns,
    UserAgentIsAICrawler := containsAny uaLower aiCrawlerPatterns }
  let s := { s with
    UserAgentIsBrowser := containsAny uaLower browserPatterns && !s.UserAgentIsBot }
  -- Header analysis
  let s := { s with
    LowHeaderCount := decide (fp.HTTP.HeaderCount < 5),
    HasBrowserHeaders := s.HasSecFetchHeaders || s.HasAcceptLanguage,
    MissingTypicalHeader := !s.HasAccept || !s.HasAcceptEncoding }
  -- Calculate scores with breakdown
  let sc := calculateScores s fp
  { s with BrowserScore := sc.1, BotScore := sc.2.1, ScoreBreakdown := sc.2.2 }

/-! ## classifier.go

`RequestID` (a random UUID) and `Timestamp` (the wall clock) are the
only non-deterministic outputs of the pipeline and are omitted from the
embedded result record.  `float64` arithmetic is modelled exactly over
`ℚ` (`1.2 = 6/5`, `0.8 = 4/5`, `0.49 = 49/100`, `0.99 = 99/100`). -/

def ClassificationBrowser : String := "browser"
def ClassificationBot : String := "bot"

/-- classifier.go `DefaultConfig().Threshold`. -/
def defaultThreshold : Int := 0

/-- The classification result (minus request id and timestamp). -/
structure ClassificationResult where
  Classification : String
  Confidence : ℚ
  Fp : Fingerprint
  Sig : Signals
  Score : Int
  Reason : String

/-- classifier.go `browserReason`. -/
def browserReason (s : Signals) : String :=
  let reasons : List String := []
  let reasons := if s.HasSecFetchHeaders then reasons ++ ["has Sec-Fetch headers"] else reasons
  let reasons := if s.IsHTTP2 then reasons ++ ["uses HTTP/2"] else reasons
  let reasons := if s.UserAgentIsBrowser then reasons ++ ["browser User-Agent"] else reasons
  let reasons := if s.HasBrowserHeaders then reasons ++ ["has browser-specific headers"] else reasons
  if reasons.length = 0 then "Classified as browser based on overall signal score"
  else "Browser indicators: " ++ String.intercalate ", " reasons

/-- classifier.go `botReason`. -/
def botReason (s : Signals) : String :=
  let reasons : List String := []
  let reasons := if s.UserAgentIsBot then reasons ++ ["bot User-Agent pattern"] else reasons
  let reasons := if s.LowHeaderCount then reasons ++ ["low header count"] else reasons
  let reasons := if !s.HasUserAgent then reasons ++ ["missing User-Agent"] else reasons
  let reasons := if !s.HasSecFetchHeaders && !s.HasAcceptLanguage then reasons ++ ["missing browser headers"] else reasons
  let reasons := if s.MissingTypicalHeader then reasons ++ ["missing typical headers"] else reasons
  if reasons.length = 0 then "Classified as bot based on overall signal score"
  else "Bot indicators: " ++ String.intercalate ", " reasons

/-- classifier.go `calculateConfidence`. -/
def calculateConfidence (s : Signals) (netScore : Int) : ℚ :=
  let totalSignals := s.BrowserScore + s.BotScore
  if totalSignals = 0 then 1/2
  else
    let absScore := if netScore < 0 then -netScore else netScore
    -- Base confidence from score ratio
    let confidence : ℚ := (absScore : ℚ) / (totalSignals : ℚ)
    -- Adjust for total signal count
    let confidence := if totalSignals ≥ 5 then min (confidence * (6/5)) 1
      else if totalSignals < 3 then confidence * (4/5)
      else confidence
    -- Clamp to 0.5-0.99 range
    max (1/2) (min (99/100) (1/2 + confidence * (49/100)))

/-- classifier.go `Classify` for a classifier with the given threshold. -/
def Classify (threshold : Int) (fp : Fingerprint) : ClassificationResult :=
  let signals := ExtractSignals fp
  let netScore := signals.BrowserScore - signals.BotScore
  let classification := if netScore ≥ threshold then ClassificationBrowser else ClassificationBot
  let reason := if netScore ≥ threshold then browserReason signals else botReason signals
  let confidence := calculateConfidence signals netScore
  { Classification := classification, Confidence := confidence, Fp := fp,
    Sig := signals, Score := netScore, Reason := reason }

/-! ## Order-theory facts for the sort (used by the permutation claim) -/

lemma lexLe_total (a b : List Char) : lexLe a b = true ∨ lexLe b a = true := by
  induction a generalizing b with
  | nil => left; rfl
  | cons x xs ih =>
    cases b with
    | nil => right; rfl
    | cons y ys =>
      simp only [lexLe]
      rcases Nat.lt_trichotomy x.toNat y.toNat with h | h | h
      · left
        simp [h]
      · have h1 : ¬x.toNat < y.toNat := by omega
        have h2 : ¬y.toNat < x.toNat := by omega
        simp only [h1, h2, if_false]
        exact ih ys
      · right
        simp [h]

lemma lexLe_trans (a b c : List Char) (hab : lexLe a b = true) (hbc : lexLe b c = true) :
    lexLe a c = true := by
  induction a generalizing b c with
  | nil => rfl
  | cons x xs ih =>
    cases b with
    | nil => simp [lexLe] at hab
    | cons y ys =>
      cases c with
      | nil => simp [lexLe] at hbc
      | cons z zs =>
        simp only [lexLe] at hab hbc ⊢
        by_cases hxy : x.toNat < y.toNat
        · by_cases hzy : z.toNat < y.toNat
          · by_cases hyz : y.toNat < z.toNat
            · omega
            · simp [hyz, hzy] at hbc
          · have : x.toNat < z.toNat := by omega
            simp [this]
        · by_cases hyx : y.toNat < x.toNat
          · simp [hxy, hyx] at hab
          · by_cases hyz : y.toNat < z.toNat
            · have : x.toNat < z.toNat := by omega
              simp [this]
            · by_cases hzy : z.toNat < y.toNat
              · simp [hyz, hzy] at hbc
              · have hxz1 : ¬x.toNat < z.toNat := by omega
                have hxz2 : ¬z.toNat < x.toNat := by omega
                simp only [hxy, hyx, if_false] at hab
                simp only [hyz, hzy, if_false] at hbc
                simp only [hxz1, hxz2, if_false]
                exact ih ys zs hab hbc

lemma lexLe_antisymm (a b : List Char) (hab : lexLe a b = true) (hba : lexLe b a = true) :
    a = b := by
  induction a generalizing b with
  | nil =>
    cases b with
    | nil => rfl
    | cons y ys => simp [lexLe] at hba
  | cons x xs ih =>
    cases b with
    | nil => simp [lexLe] at hab
    | cons y ys =>
      simp only [lexLe] at hab hba
      by_cases h1 : x.toNat < y.toNat
      · have h2 : ¬y.toNat < x.toNat := by omega
        simp [h1, h2] at hba
      · by_cases h2 : y.toNat < x.toNat
        · simp [h1, h2] at hab
        · have h3 : x.toNat = y.toNat := by omega
          have hx : x = y := Char.eq_of_val_eq (UInt32.toNat.inj h3)
          subst hx
          simp only [h1, h2, if_false] at hab hba
          rw [ih ys hab hba]

instance : IsTotal String (fun a b => strLeB a b = true) :=
  ⟨fun a b => lexLe_total a.data b.data⟩

instance : IsTrans String (fun a b => strLeB a b = true) :=
  ⟨fun a b c => lexLe_trans a.data b.data c.data⟩

instance : IsAntisymm String (fun a b => strLeB a b = true) :=
  ⟨fun a b hab hba => by
    have h := lexLe_antisymm a.data b.data hab hba
    cases a
    cases b
    exact congrArg String.mk h⟩

/-- A sort with a total, transitive, antisymmetric comparison is a
canonical form: permuted inputs sort identically. -/
lemma sortStrings_perm {l1 l2 : List String} (h : l1.Perm l2) :
    sortStrings l1 = sortStrings l2 := by
  apply List.eq_of_perm_of_sorted
    ((List.perm_insertionSort _ l1).trans (h.trans (List.perm_insertionSort _ l2).symm))
    (List.sorted_insertionSort _ l1) (List.sorted_insertionSort _ l2)

lemma find?_eq_head?_filter {α : Type} (p : α → Bool) (l : List α) :
    l.find? p = (l.filter p).head? := by
  induction l with
  | nil => rfl
  | cons a l ih =>
    by_cases h : p a = true
    · rw [List.find?_cons_of_pos _ h, List.filter_cons_of_pos h, List.head?_cons]
    · rw [List.find?_cons_of_neg _ h, List.filter_cons_of_neg h, ih]

lemma perm_eq_of_length_le_one {α : Type} {u v : List α} (h : u.Perm v)
    (hu : u.length ≤ 1) : u = v := by
  cases u with
  | nil => exact (List.Perm.eq_nil h.symm).symm
  | cons a t =>
    cases t with
    | nil => exact (List.perm_singleton.mp h.symm).symm
    | cons b t2 => simp at hu

/-- List `find?` is permutation-invariant when at most one element satisfies
the predicate. -/
lemma find?_perm {α : Type} (p : α → Bool) {l1 l2 : List α} (h : l1.Perm l2)
    (hu : (l1.filter p).length ≤ 1) : l1.find? p = l2.find? p := by
  rw [find?_eq_head?_filter, find?_eq_head?_filter, perm_eq_of_length_le_one (h.filter p) hu]

lemma nodup_const_length_le_one {α : Type} {xs : List α} {c : α} (hnd : xs.Nodup)
    (hc : ∀ x ∈ xs, x = c) : xs.length ≤ 1 := by
  cases xs with
  | nil => simp
  | cons a t =>
    cases t with
    | nil => simp
    | cons b t2 =>
      exfalso
      have ha := hc a (by simp)
      have hb := hc b (by simp)
      have : a ∉ b :: t2 := (List.nodup_cons.mp hnd).1
      exact this (by simp [ha, hb])

/-- Go `Header.Get` is permutation-invariant for a map whose (case-folded)
keys are distinct. -/
lemma getHeader_perm {h1 h2 : List (String × String)} (hp : h1.Perm h2)
    (hnd : (h1.map (fun q => toLowerStr q.1)).Nodup) (name : String) :
    getHeader h1 name = getHeader h2 name := by
  have hlen : (h1.filter (fun q => toLowerStr q.1 == toLowerStr name)).length ≤ 1 := by
    have hconst : ∀ x ∈ (h1.filter (fun q => toLowerStr q.1 == toLowerStr name)).map
        (fun q => toLowerStr q.1), x = toLowerStr name := by
      intro x hx
      rcases List.mem_map.mp hx with ⟨q, hq, rfl⟩
      have hq2 := List.of_mem_filter hq
      exact beq_iff_eq.mp hq2
    have hle := nodup_const_length_le_one
      (hnd.sublist ((List.filter_sublist h1).map (fun q => toLowerStr q.1))) hconst
    rwa [List.length_map] at hle
  unfold getHeader
  rw [find?_perm (fun q => toLowerStr q.1 == toLowerStr name) hp hlen]

/-- C1.  The JA4H encoder is permutation-invariant in the headers
and cookies: for identical method, protocol, header set and cookie set,
permuting the iteration order of the header map (whose case-folded
names are distinct, as Go map keys are) and of the parsed cookie list
changes none of the four parts of the encoded JA4H string, nor the full
string. -/
theorem JA4H_perm_invariant (m p : String) (hs1 hs2 cs1 cs2 : List (String × String))
    (hnd : (hs1.map (fun q => toLowerStr q.1)).Nodup)
    (hh : hs1.Perm hs2) (hc : cs1.Perm cs2) :
    JA4H_a ⟨m, p, hs1, cs1⟩ = JA4H_a ⟨m, p, hs2, cs2⟩ ∧
    JA4H_b ⟨m, p, hs1, cs1⟩ = JA4H_b ⟨m, p, hs2, cs2⟩ ∧
    JA4H_c ⟨m, p, hs1, cs1⟩ = JA4H_c ⟨m, p, hs2, cs2⟩ ∧
    JA4H_d ⟨m, p, hs1, cs1⟩ = JA4H_d ⟨m, p, hs2, cs2⟩ ∧
    JA4H ⟨m, p, hs1, cs1⟩ = JA4H ⟨m, p, hs2, cs2⟩ := by
  have hg : ∀ name, getHeader hs1 name = getHeader hs2 name := getHeader_perm hh hnd
  have hgfun : getHeader hs1 = getHeader hs2 := funext hg
  have ha : JA4H_a ⟨m, p, hs1, cs1⟩ = JA4H_a ⟨m, p, hs2, cs2⟩ := by
    simp only [JA4H_a, cookieFlag, refererFlag, countHeaders, languageCode,
      hg, hh.length_eq, hc.length_eq]
  have hb : JA4H_b ⟨m, p, hs1, cs1⟩ = JA4H_b ⟨m, p, hs2, cs2⟩ := by
    have hsort : sortStrings ((hs1.map Prod.fst).filter
          (fun n => toLowerStr n ≠ "cookie" ∧ toLowerStr n ≠ "referer"))
        = sortStrings ((hs2.map Prod.fst).filter
          (fun n => toLowerStr n ≠ "cookie" ∧ toLowerStr n ≠ "referer")) :=
      sortStrings_perm (List.Perm.filter _ (List.Perm.map _ hh))
    simp only [JA4H_b, hh.length_eq, hsort, hgfun]
  have hcc : JA4H_c ⟨m, p, hs1, cs1⟩ = JA4H_c ⟨m, p, hs2, cs2⟩ := by
    have hsort : sortStrings (cs1.map Prod.fst) = sortStrings (cs2.map Prod.fst) :=
      sortStrings_perm (List.Perm.map _ hc)
    simp only [JA4H_c, hc.length_eq, hsort]
  have hdd : JA4H_d ⟨m, p, hs1, cs1⟩ = JA4H_d ⟨m, p, hs2, cs2⟩ := by
    have hsort : sortStrings (cs1.map (fun c => c.1 ++ "=" ++ c.2))
        = sortStrings (cs2.map (fun c => c.1 ++ "=" ++ c.2)) :=
      sortStrings_perm (List.Perm.map _ hc)
    simp only [JA4H_d, hc.length_eq, hsort]
  exact ⟨ha, hb, hcc, hdd, by simp only [JA4H, ha, hb, hcc, hdd]⟩

/-- C1, witness: a concrete two-header, two-cookie request and a
reordering of both. -/
theorem JA4H_perm_invariant_witness :
    JA4H ⟨"GET", "HTTP/1.1", [("Accept", "x"), ("User-Agent", "y")],
        [("b", "2"), ("a", "1")]⟩
      = JA4H ⟨"GET", "HTTP/1.1", [("User-Agent", "y"), ("Accept", "x")],
        [("a", "1"), ("b", "2")]⟩ :=
  (JA4H_perm_invariant "GET" "HTTP/1.1" _ _ _ _ (by decide) (by decide) (by decide)).2.2.2.2

/-! ## Scoring decomposition

`calculateScores` accumulates through a chain of guarded updates.  For
reasoning we decompose each score into a weighted sum over the vector of
conditions the code evaluates (with the enclosing availability gates
folded into the gated conditions as conjunctions). -/

/-- Weight contribution of one condition. -/
def wt (c : Bool) (n : Int) : Int := if c then n else 0

/-- The 16 browser-positive conditions of `calculateScores`, in source
order. -/
structure BrowserConds where
  http2 : Bool
  secFetch : Bool
  acceptLang : Bool
  browserHeaders : Bool
  browserUA : Bool
  secChUA : Bool
  cookies : Bool
  manyHeaders : Bool
  modernTLS : Bool
  tlsHighCiphers : Bool
  tlsSession : Bool
  tlsGroups : Bool
  tlsManyExt : Bool
  ja4hManyHeaders : Bool
  ja4hReferer : Bool
  ja4hConsistent : Bool

/-- The 14 bot-positive conditions of `calculateScores`, in source
order. -/
structure BotConds where
  botUA : Bool
  aiCrawler : Bool
  lowHeaders : Bool
  missingTypical : Bool
  noUA : Bool
  http11 : Bool
  acceptAny : Bool
  noAcceptLang : Bool
  tlsLowCiphers : Bool
  tlsFewExt : Bool
  tlsNoSession : Bool
  ja4hNoLang : Bool
  ja4hLowHeaders : Bool
  ja4hInconsistent : Bool

/-- The browser conditions as `calculateScores` evaluates them on a
signal/fingerprint pair. -/
def browserCondsOf (s : Signals) (fp : Fingerprint) : BrowserConds where
  http2 := s.IsHTTP2
  secFetch := s.HasSecFetchHeaders
  acceptLang := s.HasAcceptLanguage
  browserHeaders := s.HasBrowserHeaders
  browserUA := s.UserAgentIsBrowser && !s.UserAgentIsBot
  secChUA := s.HasSecClientHints
  cookies := fp.HTTP.HasCookies
  manyHeaders := decide (fp.HTTP.HeaderCount ≥ 10)
  modernTLS := s.HasModernTLS
  tlsHighCiphers := s.HasTLSFingerprint && s.HighCipherCount
  tlsSession := s.HasTLSFingerprint && s.HasSessionSupport
  tlsGroups := s.HasTLSFingerprint && s.HasMultipleGroups
  tlsManyExt := s.HasTLSFingerprint && decide (fp.TLS.ExtensionsCount ≥ 10)
  ja4hManyHeaders := s.HasJA4HFingerprint && s.JA4HHighHeaderCount
  ja4hReferer := s.HasJA4HFingerprint && s.JA4HHasReferer
  ja4hConsistent := s.HasJA4HFingerprint && s.JA4HConsistentSignal

/-- The bot conditions as `calculateScores` evaluates them on a
signal/fingerprint pair. -/
def botCondsOf (s : Signals) (fp : Fingerprint) : BotConds where
  botUA := s.UserAgentIsBot
  aiCrawler := s.UserAgentIsAICrawler
  lowHeaders := s.LowHeaderCount
  missingTypical := s.MissingTypicalHeader && !s.HasSecFetchHeaders
  noUA := !s.HasUserAgent
  http11 := !s.IsHTTP2 && fp.HTTP.Version == "HTTP/1.1"
  acceptAny := fp.HTTP.Accept == "*/*"
  noAcceptLang := !s.HasAcceptLanguage && !s.HasSecFetchHeaders
  tlsLowCiphers := s.HasTLSFingerprint
    && (decide (fp.TLS.CipherSuitesCount > 0) && decide (fp.TLS.CipherSuitesCount < 10))
  tlsFewExt := s.HasTLSFingerprint
    && (decide (fp.TLS.ExtensionsCount > 0) && decide (fp.TLS.ExtensionsCount < 8))
  tlsNoSession := s.HasTLSFingerprint && (!s.HasSessionSupport && fp.TLS.Available)
  ja4hNoLang := s.HasJA4HFingerprint && s.JA4HMissingLanguage
  ja4hLowHeaders := s.HasJA4HFingerprint && s.JA4HLowHeaderCount
  ja4hInconsistent := s.HasJA4HFingerprint && !s.JA4HConsistentSignal

/-- Browser score as the weighted sum of its condition vector. -/
def browserScoreOf (c : BrowserConds) : Int :=
  wt c.http2 2 + wt c.secFetch 3 + wt c.acceptLang 1 + wt c.browserHeaders 1
    + wt c.browserUA 2 + wt c.secChUA 2 + wt c.cookies 1 + wt c.manyHeaders 1
    + wt c.modernTLS 1 + wt c.tlsHighCiphers 2 + wt c.tlsSession 1 + wt c.tlsGroups 1
    + wt c.tlsManyExt 1 + wt c.ja4hManyHeaders 1 + wt c.ja4hReferer 1 + wt c.ja4hConsistent 1

/-- Bot score as the weighted sum of its condition vector. -/
def botScoreOf (c : BotConds) : Int :=
  wt c.botUA 3 + wt c.aiCrawler 2 + wt c.lowHeaders 2 + wt c.missingTypical 1
    + wt c.noUA 2 + wt c.http11 1 + wt c.acceptAny 1 + wt c.noAcceptLang 1
    + wt c.tlsLowCiphers 1 + wt c.tlsFewExt 1 + wt c.tlsNoSession 1
    + wt c.ja4hNoLang 1 + wt c.ja4hLowHeaders 1 + wt c.ja4hInconsistent 2

lemma ite_add_shift (c : Prop) [Decidable c] (x a : Int) :
    (if c then x + a else x) = x + (if c then a else 0) := by
  split <;> simp

lemma calculateScores_fst (s : Signals) (fp : Fingerprint) :
    (calculateScores s fp).1 = browserScoreOf (browserCondsOf s fp) := by
  simp only [calculateScores, browserScoreOf, browserCondsOf, wt]
  by_cases hT : s.HasTLSFingerprint = true
    <;> by_cases hJ : s.HasJA4HFingerprint = true
    <;> simp only [hT, hJ, Bool.false_eq_true, if_true, if_false, Bool.true_and,
      Bool.false_and, Bool.not_true, Bool.not_false, eq_self_iff_true]
    <;> simp only [ite_add_shift, zero_add, Bool.false_eq_true, if_false, add_zero]

lemma calculateScores_bot (s : Signals) (fp : Fingerprint) :
    (calculateScores s fp).2.1 = botScoreOf (botCondsOf s fp) := by
  simp only [calculateScores, botScoreOf, botCondsOf, wt]
  by_cases hT : s.HasTLSFingerprint = true
    <;> by_cases hJ : s.HasJA4HFingerprint = true
    <;> simp only [hT, hJ, Bool.false_eq_true, if_true, if_false, Bool.true_and,
      Bool.false_and, Bool.not_true, Bool.not_false, eq_self_iff_true]
    <;> simp only [ite_add_shift, zero_add, Bool.false_eq_true, if_false, add_zero]

/-! ## Claims -/

/-- C5.  The consistency check marks the signal set consistent exactly
when the JA4H-derived HTTP/2 flag equals the directly observed HTTP/2
flag, the JA4H-derived cookie flag equals the observed cookie presence,
the JA4H-derived referer flag equals the observed referer presence, and
it is not the case that JA4H reports missing language while the observed
`Accept-Language` is present; any one of these mismatches makes the
signal set inconsistent. -/
theorem checkJA4HConsistency_iff (s : Signals) (fp : Fingerprint) :
    checkJA4HConsistency s fp = true ↔
      (s.JA4HIsHTTP2 = s.IsHTTP2 ∧
       s.JA4HHasCookies = fp.HTTP.HasCookies ∧
       s.JA4HHasReferer = fp.HTTP.HasReferer ∧
       ¬(s.JA4HMissingLanguage = true ∧ s.HasAcceptLanguage = true)) := by
  simp only [checkJA4HConsistency]
  split_ifs <;> simp_all

/-- The browser-positive weight table exactly as the spec lists it
(§4.4).  "Browser-like UA" is the spec's §4.3 notion: matches a browser
token and does not match any bot token, i.e. `UserAgentIsBrowser` and
not `UserAgentIsBot` on the signal record. -/
def specBrowserScore (s : Signals) (fp : Fingerprint) : Int :=
  (if s.IsHTTP2 then 2 else 0)
    + (if s.HasSecFetchHeaders then 3 else 0)
    + (if s.HasAcceptLanguage then 1 else 0)
    + (if s.HasBrowserHeaders then 1 else 0)
    + (if s.UserAgentIsBrowser && !s.UserAgentIsBot then 2 else 0)
    + (if s.HasSecClientHints then 2 else 0)
    + (if fp.HTTP.HasCookies then 1 else 0)
    + (if fp.HTTP.HeaderCount ≥ 10 then 1 else 0)
    + (if s.HasModernTLS then 1 else 0)
    + (if s.HasTLSFingerprint then
        (if s.HighCipherCount then 2 else 0)
          + (if s.HasSessionSupport then 1 else 0)
          + (if s.HasMultipleGroups then 1 else 0)
          + (if fp.TLS.ExtensionsCount ≥ 10 then 1 else 0)
      else 0)
    + (if s.HasJA4HFingerprint then
        (if s.JA4HHighHeaderCount then 1 else 0)
          + (if s.JA4HHasReferer then 1 else 0)
          + (if s.JA4HConsistentSignal then 1 else 0)
      else 0)

/-- The bot-positive weight table exactly as the spec lists it (§4.4):
in particular the no-session-ticket weight is conditioned only on the
TLS fingerprint being available. -/
def specBotScore (s : Signals) (fp : Fingerprint) : Int :=
  (if s.UserAgentIsBot then 3 else 0)
    + (if s.UserAgentIsAICrawler then 2 else 0)
    + (if s.LowHeaderCount then 2 else 0)
    + (if s.MissingTypicalHeader && !s.HasSecFetchHeaders then 1 else 0)
    + (if !s.HasUserAgent then 2 else 0)
    + (if !s.IsHTTP2 && fp.HTTP.Version == "HTTP/1.1" then 1 else 0)
    + (if fp.HTTP.Accept == "*/*" then 1 else 0)
    + (if !s.HasAcceptLanguage && !s.HasSecFetchHeaders then 1 else 0)
    + (if s.HasTLSFingerprint then
        (if fp.TLS.CipherSuitesCount > 0 ∧ fp.TLS.CipherSuitesCount < 10 then 1 else 0)
          + (if fp.TLS.ExtensionsCount > 0 ∧ fp.TLS.ExtensionsCount < 8 then 1 else 0)
          + (if !s.HasSessionSupport then 1 else 0)
      else 0)
    + (if s.HasJA4HFingerprint then
        (if s.JA4HMissingLanguage then 1 else 0)
          + (if s.JA4HLowHeaderCount then 1 else 0)
          + (if !s.JA4HConsistentSignal then 2 else 0)
      else 0)

/-- As `specBotScore`, but the no-session-ticket weight additionally
requires `fp.TLS.Available`, as the code demands. -/
def specBotScoreAmended (s : Signals) (fp : Fingerprint) : Int :=
  (if s.UserAgentIsBot then 3 else 0)
    + (if s.UserAgentIsAICrawler then 2 else 0)
    + (if s.LowHeaderCount then 2 else 0)
    + (if s.MissingTypicalHeader && !s.HasSecFetchHeaders then 1 else 0)
    + (if !s.HasUserAgent then 2 else 0)
    + (if !s.IsHTTP2 && fp.HTTP.Version == "HTTP/1.1" then 1 else 0)
    + (if fp.HTTP.Accept == "*/*" then 1 else 0)
    + (if !s.HasAcceptLanguage && !s.HasSecFetchHeaders then 1 else 0)
    + (if s.HasTLSFingerprint then
        (if fp.TLS.CipherSuitesCount > 0 ∧ fp.TLS.CipherSuitesCount < 10 then 1 else 0)
          + (if fp.TLS.ExtensionsCount > 0 ∧ fp.TLS.ExtensionsCount < 8 then 1 else 0)
          + (if !s.HasSessionSupport && fp.TLS.Available then 1 else 0)
      else 0)
    + (if s.HasJA4HFingerprint then
        (if s.JA4HMissingLanguage then 1 else 0)
          + (if s.JA4HLowHeaderCount then 1 else 0)
          + (if !s.JA4HConsistentSignal then 2 else 0)
      else 0)

/-- A signal record whose only set flag is the TLS-fingerprint
availability flag. -/
def sTLSOnly : Signals := { HasTLSFingerprint := true }

/-- C2, counterexample.  On a pair where the TLS fingerprint hashes
are marked available but `fp.TLS.Available` is false, the code does not
award the no-session-ticket bot weight while the spec's table does:
`calculateScores` yields a bot score of 3 against the table's 4. -/
theorem calculateScores_ne_specBotScore :
    (calculateScores sTLSOnly {}).2.1 = 3 ∧ specBotScore sTLSOnly {} = 4 := by
  constructor <;> decide

/-- C2, amended.  For every signal/fingerprint pair, the scores of
`calculateScores` equal the spec's weighted sums, with one correction:
the no-session-ticket bot weight (+1) is applied only when, in addition
to the TLS fingerprint hash being available, `fp.TLS.Available` holds.
Conditions are evaluated independently and accumulate additively; the
TLS-conditional and JA4H-conditional weights apply only under their
availability gates. -/
theorem calculateScores_eq_weightTable (s : Signals) (fp : Fingerprint) :
    (calculateScores s fp).1 = specBrowserScore s fp ∧
      (calculateScores s fp).2.1 = specBotScoreAmended s fp := by
  rw [calculateScores_fst, calculateScores_bot]
  constructor
  · simp only [browserScoreOf, browserCondsOf, specBrowserScore, wt, decide_eq_true_eq]
    by_cases hT : s.HasTLSFingerprint = true
      <;> by_cases hJ : s.HasJA4HFingerprint = true
      <;> simp [hT, hJ, ite_add_shift]
      <;> ring
  · simp only [botScoreOf, botCondsOf, specBotScoreAmended, wt, decide_eq_true_eq]
    by_cases hT : s.HasTLSFingerprint = true
      <;> by_cases hJ : s.HasJA4HFingerprint = true
      <;> simp [hT, hJ, ite_add_shift]
      <;> ring

/-- Pointwise order on bot condition vectors: every condition on in `c`
is on in `c'`. -/
def BotConds.le (c c' : BotConds) : Prop :=
  (c.botUA = true → c'.botUA = true) ∧
  (c.aiCrawler = true → c'.aiCrawler = true) ∧
  (c.lowHeaders = true → c'.lowHeaders = true) ∧
  (c.missingTypical = true → c'.missingTypical = true) ∧
  (c.noUA = true → c'.noUA = true) ∧
  (c.http11 = true → c'.http11 = true) ∧
  (c.acceptAny = true → c'.acceptAny = true) ∧
  (c.noAcceptLang = true → c'.noAcceptLang = true) ∧
  (c.tlsLowCiphers = true → c'.tlsLowCiphers = true) ∧
  (c.tlsFewExt = true → c'.tlsFewExt = true) ∧
  (c.tlsNoSession = true → c'.tlsNoSession = true) ∧
  (c.ja4hNoLang = true → c'.ja4hNoLang = true) ∧
  (c.ja4hLowHeaders = true → c'.ja4hLowHeaders = true) ∧
  (c.ja4hInconsistent = true → c'.ja4hInconsistent = true)

/-- Pointwise order on browser condition vectors. -/
def BrowserConds.le (c c' : BrowserConds) : Prop :=
  (c.http2 = true → c'.http2 = true) ∧
  (c.secFetch = true → c'.secFetch = true) ∧
  (c.acceptLang = true → c'.acceptLang = true) ∧
  (c.browserHeaders = true → c'.browserHeaders = true) ∧
  (c.browserUA = true → c'.browserUA = true) ∧
  (c.secChUA = true → c'.secChUA = true) ∧
  (c.cookies = true → c'.cookies = true) ∧
  (c.manyHeaders = true → c'.manyHeaders = true) ∧
  (c.modernTLS = true → c'.modernTLS = true) ∧
  (c.tlsHighCiphers = true → c'.tlsHighCiphers = true) ∧
  (c.tlsSession = true → c'.tlsSession = true) ∧
  (c.tlsGroups = true → c'.tlsGroups = true) ∧
  (c.tlsManyExt = true → c'.tlsManyExt = true) ∧
  (c.ja4hManyHeaders = true → c'.ja4hManyHeaders = true) ∧
  (c.ja4hReferer = true → c'.ja4hReferer = true) ∧
  (c.ja4hConsistent = true → c'.ja4hConsistent = true)

lemma wt_mono {a b : Bool} (h : a = true → b = true) {n : Int} (hn : 0 ≤ n) :
    wt a n ≤ wt b n := by
  cases a <;> cases b <;> simp_all [wt]

lemma botScoreOf_mono {c c' : BotConds} (h : BotConds.le c c') :
    botScoreOf c ≤ botScoreOf c' := by
  obtain ⟨h1, h2, h3, h4, h5, h6, h7, h8, h9, h10, h11, h12, h13, h14⟩ := h
  unfold botScoreOf
  refine add_le_add (add_le_add (add_le_add (add_le_add (add_le_add (add_le_add
    (add_le_add (add_le_add (add_le_add (add_le_add (add_le_add (add_le_add
      (add_le_add ?_ ?_) ?_) ?_) ?_) ?_) ?_) ?_) ?_) ?_) ?_) ?_) ?_) ?_
    <;> apply wt_mono <;> first | assumption | decide

lemma browserScoreOf_mono {c c' : BrowserConds} (h : BrowserConds.le c c') :
    browserScoreOf c ≤ browserScoreOf c' := by
  obtain ⟨h1, h2, h3, h4, h5, h6, h7, h8, h9, h10, h11, h12, h13, h14, h15, h16⟩ := h
  unfold browserScoreOf
  refine add_le_add (add_le_add (add_le_add (add_le_add (add_le_add (add_le_add
    (add_le_add (add_le_add (add_le_add (add_le_add (add_le_add (add_le_add
      (add_le_add (add_le_add (add_le_add ?_ ?_) ?_) ?_) ?_) ?_) ?_) ?_) ?_) ?_)
      ?_) ?_) ?_) ?_) ?_) ?_
    <;> apply wt_mono <;> first | assumption | decide

/-- C8.  Monotonicity of the scoring engine: if every bot-positive
condition that holds of one signal/fingerprint pair also holds of a
second one, the second pair's bot score is at least the first's — in
particular, turning on any single bot-positive condition while holding
every other condition fixed never decreases the bot score; and
symmetrically for the browser-positive conditions and the browser
score. -/
theorem calculateScores_monotone (s s' : Signals) (fp fp' : Fingerprint) :
    (BotConds.le (botCondsOf s fp) (botCondsOf s' fp') →
      (calculateScores s fp).2.1 ≤ (calculateScores s' fp').2.1) ∧
    (BrowserConds.le (browserCondsOf s fp) (browserCondsOf s' fp') →
      (calculateScores s fp).1 ≤ (calculateScores s' fp').1) := by
  constructor
  · intro h
    rw [calculateScores_bot, calculateScores_bot]
    exact botScoreOf_mono h
  · intro h
    rw [calculateScores_fst, calculateScores_fst]
    exact browserScoreOf_mono h

/-- C8, witness: turning on the bot-UA condition (respectively the
Sec-Fetch condition) from the all-false signal record does not decrease
the bot (respectively browser) score. -/
theorem calculateScores_monotone_witness :
    (calculateScores {} {}).2.1 ≤ (calculateScores { UserAgentIsBot := true } {}).2.1 ∧
    (calculateScores {} {}).1 ≤ (calculateScores { HasSecFetchHeaders := true } {}).1 :=
  ⟨(calculateScores_monotone {} { UserAgentIsBot := true } {} {}).1
      (by unfold BotConds.le botCondsOf; decide),
   (calculateScores_monotone {} { HasSecFetchHeaders := true } {} {}).2
      (by unfold BrowserConds.le browserCondsOf; decide)⟩

/-- A fingerprint whose JA4H string has a full-length part A (12
characters) but no underscore-separated hash parts at all. -/
def fpNoHashParts : Fingerprint :=
  { HTTP := { JA4HHash := "ge11nn020000" } }

/-- C3, counterexample.  The claim asserts that a JA4H string with
fewer than 4 underscore-separated parts yields all JA4H-derived signals
false.  `"ge11nn020000"` has a single part, yet part-A extraction runs
and sets the low-header-count (and missing-language) signals. -/
theorem extractJA4H_parts_lt_4_still_parses :
    (splitStr '_' fpNoHashParts.HTTP.JA4HHash).length < 4 ∧
      (ExtractSignals fpNoHashParts).JA4HLowHeaderCount = true ∧
      (ExtractSignals fpNoHashParts).JA4HMissingLanguage = true := by
  decide

/-- C3, amended.  The defensive guard in `extractJA4HSignals` only
tests part A: for every fingerprint whose JA4H segment before the first
underscore is shorter than 12 characters, every JA4H-derived signal is
false/absent (and extraction is a total function, so it never fails).
A string with a 12-character part A but fewer than 4 parts is parsed
normally. -/
theorem extractJA4H_short_partA_all_false (fp : Fingerprint)
    (h : ((splitStr '_' fp.HTTP.JA4HHash).headD "").length < 12) :
    (ExtractSignals fp).JA4HIsHTTP2 = false ∧
    (ExtractSignals fp).JA4HHasCookies = false ∧
    (ExtractSignals fp).JA4HHasReferer = false ∧
    (ExtractSignals fp).JA4HLowHeaderCount = false ∧
    (ExtractSignals fp).JA4HHighHeaderCount = false ∧
    (ExtractSignals fp).JA4HMissingLanguage = false ∧
    (ExtractSignals fp).JA4HLanguageCode = "" := by
  simp only [ExtractSignals, extractJA4HSignals]
  rw [if_pos (Or.inr h)]
  split <;> simp

/-- C3, witness: the amended theorem applied to a concrete malformed
fingerprint. -/
theorem extractJA4H_short_partA_all_false_witness :
    (ExtractSignals { HTTP := { JA4HHash := "short_x_y_z" } }).JA4HIsHTTP2 = false ∧
    (ExtractSignals { HTTP := { JA4HHash := "short_x_y_z" } }).JA4HHasCookies = false ∧
    (ExtractSignals { HTTP := { JA4HHash := "short_x_y_z" } }).JA4HHasReferer = false ∧
    (ExtractSignals { HTTP := { JA4HHash := "short_x_y_z" } }).JA4HLowHeaderCount = false ∧
    (ExtractSignals { HTTP := { JA4HHash := "short_x_y_z" } }).JA4HHighHeaderCount = false ∧
    (ExtractSignals { HTTP := { JA4HHash := "short_x_y_z" } }).JA4HMissingLanguage = false ∧
    (ExtractSignals { HTTP := { JA4HHash := "short_x_y_z" } }).JA4HLanguageCode = "" :=
  extractJA4H_short_partA_all_false { HTTP := { JA4HHash := "short_x_y_z" } } (by decide)

/-- C10.  A non-empty but malformed JA4H string (part A shorter than
12 characters) leaves `HasJA4HFingerprint` true while
`JA4HConsistentSignal` stays false, and on any such signal record the
scoring engine charges the +2 JA4H-inconsistent bot weight and withholds
the +1 JA4H-consistent browser weight, relative to the same record with
the consistency flag set: a malformed JA4H string is penalized as
evasion, not treated as neutral/absent. -/
theorem malformedJA4H_penalized (fp : Fingerprint)
    (h1 : fp.HTTP.JA4HHash ≠ "")
    (h2 : ((splitStr '_' fp.HTTP.JA4HHash).headD "").length < 12) :
    (ExtractSignals fp).HasJA4HFingerprint = true ∧
    (ExtractSignals fp).JA4HConsistentSignal = false ∧
    ∀ s : Signals, s.HasJA4HFingerprint = true → s.JA4HConsistentSignal = false →
      (calculateScores s fp).2.1
          = (calculateScores { s with JA4HConsistentSignal := true } fp).2.1 + 2 ∧
        (calculateScores s fp).1 + 1
          = (calculateScores { s with JA4HConsistentSignal := true } fp).1 := by
  refine ⟨?_, ?_, ?_⟩
  · simp only [ExtractSignals, extractJA4HSignals]
    rw [if_pos (Or.inr h2)]
    split <;> simp [h1]
  · simp only [ExtractSignals, extractJA4HSignals]
    rw [if_pos (Or.inr h2)]
    split <;> simp
  · intro s hs hc
    rw [calculateScores_bot, calculateScores_bot, calculateScores_fst, calculateScores_fst]
    constructor
    · simp [botScoreOf, botCondsOf, wt, hs, hc]
    · simp [browserScoreOf, browserCondsOf, wt, hs, hc]

/-- A fingerprint carrying a malformed (too short) JA4H string. -/
def fpShortJA4H : Fingerprint := { HTTP := { JA4HHash := "bogus" } }

/-- C10, witness: the theorem instantiated at a concrete malformed
fingerprint and a concrete signal record. -/
theorem malformedJA4H_penalized_witness :
    (ExtractSignals fpShortJA4H).HasJA4HFingerprint = true ∧
    (ExtractSignals fpShortJA4H).JA4HConsistentSignal = false ∧
    ((calculateScores { HasJA4HFingerprint := true } fpShortJA4H).2.1
        = (calculateScores { HasJA4HFingerprint := true, JA4HConsistentSignal := true }
            fpShortJA4H).2.1 + 2 ∧
      (calculateScores { HasJA4HFingerprint := true } fpShortJA4H).1 + 1
        = (calculateScores { HasJA4HFingerprint := true, JA4HConsistentSignal := true }
            fpShortJA4H).1) := by
  have h := malformedJA4H_penalized fpShortJA4H (by decide) (by decide)
  exact ⟨h.1, h.2.1, h.2.2 { HasJA4HFingerprint := true } rfl rfl⟩

/-- Part B as the spec's words state it: first 12 hex digits of SHA-256
over the sorted (lexicographic, case-preserved) eligible header names
joined by `","`, followed immediately by the corresponding header values
(in sorted-name order) joined by `","`; `Cookie` and `Referer`
excluded; twelve `'0'` characters when there are no eligible headers. -/
def ja4h_b_spec (r : Request) : String :=
  let names := sortStrings ((r.headers.map Prod.fst).filter
    (fun n => toLowerStr n ≠ "cookie" ∧ toLowerStr n ≠ "referer"))
  let values := names.map (getHeader r.headers)
  if names = [] then zeros12
  else truncatedSHA256 (String.intercalate "," names ++ String.intercalate "," values)

/-- A request whose only header is `Cookie`: no eligible headers. -/
def reqCookieOnly : Request :=
  { Method := "GET", Proto := "HTTP/1.1",
    headers := [("Cookie", "a=1")], cookies := [("a", "1")] }

/-- A request with an empty-valued header between two non-empty ones. -/
def reqEmptyValue : Request :=
  { Method := "GET", Proto := "HTTP/1.1",
    headers := [("A", "x"), ("B", ""), ("C", "y")], cookies := [] }

/-- C4, counterexample.  The code's `JA4H_b` disagrees with the
spec's formula in two places: (1) the zeros short-circuit tests the
whole header map, not the eligible headers — a request whose only
header is `Cookie` hashes the empty string (`"e3b0c44298fc"`) instead
of producing twelve zeros; (2) empty header values are dropped from the
value join instead of contributing an empty component. -/
theorem JA4H_b_ne_spec :
    JA4H_b reqCookieOnly ≠ ja4h_b_spec reqCookieOnly ∧
    JA4H_b reqCookieOnly = truncatedSHA256 "" ∧
    ja4h_b_spec reqCookieOnly = zeros12 ∧
    JA4H_b reqEmptyValue ≠ ja4h_b_spec reqEmptyValue := by
  refine ⟨by decide, by decide, by decide, by decide⟩

/-- Part B as amended: the values joined are only the non-empty values
among the corresponding header values (in sorted-name order), and the
twelve-zeros case applies exactly when the request has no headers at
all — when the only headers are `Cookie`/`Referer`, part B is the
truncated SHA-256 of the empty string. -/
def ja4h_b_amended (r : Request) : String :=
  let names := sortStrings ((r.headers.map Prod.fst).filter
    (fun n => toLowerStr n ≠ "cookie" ∧ toLowerStr n ≠ "referer"))
  let values := (names.map (getHeader r.headers)).filter (· ≠ "")
  if r.headers = [] then zeros12
  else truncatedSHA256 (String.intercalate "," names ++ String.intercalate "," values)

/-- C4, amended.  For every request, part B of the encoder equals
the amended formula: truncated SHA-256 over sorted case-preserved
eligible names joined by `","` followed by the non-empty corresponding
values (in sorted-name order) joined by `","`, with `Cookie`/`Referer`
excluded from the computation, twelve zeros exactly for an empty header
map. -/
theorem JA4H_b_eq_amended (r : Request) : JA4H_b r = ja4h_b_amended r := by
  simp only [JA4H_b, ja4h_b_amended, List.length_eq_zero]

/-! ### Shape lemmas for the round-trip (C7) -/

lemma strData_append (a b : String) : (a ++ b).data = a.data ++ b.data := by
  cases a
  cases b
  rfl

lemma strLength_eq (s : String) : s.length = s.data.length := rfl

lemma strLength_mk (l : List Char) : (String.mk l).length = l.length := rfl

lemma drop_of_append {α : Type} (a b : List α) {n : Nat} (h : a.length = n) :
    (a ++ b).drop n = b := by
  subst h
  exact List.drop_left a b

lemma take_of_append {α : Type} (a b : List α) {n : Nat} (h : a.length = n) :
    (a ++ b).take n = a := by
  subst h
  exact List.take_left a b

lemma take_of_length {α : Type} (a : List α) {n : Nat} (h : a.length = n) :
    a.take n = a := by
  subst h
  exact List.take_length a

/-- The method code always has exactly 2 characters. -/
lemma methodCode_length (m : String) : (httpMethodCode m).length = 2 := by
  simp only [httpMethodCode]
  split <;> rename_i hlt
  · rw [strLength_eq, strData_append]
    simp only [List.length_append, List.length_replicate]
    simp only [strLength_eq] at hlt ⊢
    omega
  · rw [strLength_mk, List.length_take]
    rw [strLength_eq, not_lt] at hlt
    omega

/-- The version code is one of its three constants. -/
lemma versionCode_cases (p : String) :
    httpVersionCode p = "11" ∨ httpVersionCode p = "20" ∨ httpVersionCode p = "30" := by
  simp only [httpVersionCode]
  split_ifs <;> simp

/-- The cookie flag is one of its two constants. -/
lemma cookieFlag_cases (r : Request) : cookieFlag r = "c" ∨ cookieFlag r = "n" := by
  simp only [cookieFlag]
  split_ifs <;> simp

/-- The referer flag is one of its two constants. -/
lemma refererFlag_cases (r : Request) : refererFlag r = "r" ∨ refererFlag r = "n" := by
  simp only [refererFlag]
  split_ifs <;> simp

/-- For clamped counts, `%02d` prints exactly two decimal digits,
underscore-free, and `parseHeaderCount` reads the value back. -/
lemma fmt02d_facts : ∀ n : Nat, n < 100 →
    (fmt02d n).length = 2 ∧ ('_' ∉ (fmt02d n).data) ∧ parseHeaderCount (fmt02d n) = n := by
  decide

/-- The header count is clamped to at most 99. -/
lemma countHeaders_le (h : List (String × String)) : countHeaders h < 100 := by
  simp only [countHeaders]
  split_ifs <;> omega

/-- The language code always has exactly 4 characters. -/
lemma languageCode_length (h : List (String × String)) : (languageCode h).length = 4 := by
  simp only [languageCode]
  split
  · rfl
  · simp only [strLength_eq, List.length_take]
    split <;> rename_i hlt
    · simp only [List.length_append, List.length_replicate]
      omega
    · simp only [not_lt] at hlt
      omega

/-- Splitting a list that starts with a separator-free prefix followed
by a separator peels off exactly that prefix. -/
lemma splitChar_append (sep : Char) (l1 l2 : List Char) (h : sep ∉ l1) :
    splitChar sep (l1 ++ sep :: l2) = l1 :: splitChar sep l2 := by
  induction l1 with
  | nil => simp [splitChar]
  | cons a as ih =>
    simp only [List.mem_cons, not_or] at h
    simp only [List.cons_append, splitChar, List.append_eq, ih h.2]
    rw [if_neg (fun hh => h.1 hh.symm)]
    simp

lemma strMk_data (s : String) : (⟨s.data⟩ : String) = s := rfl

lemma slice_middle {α : Type} (pre mid post : List α) {i k : Nat}
    (hpre : pre.length = i) (hmid : mid.length = k) :
    ((pre ++ (mid ++ post)).drop i).take k = mid := by
  rw [drop_of_append _ _ hpre, take_of_append _ _ hmid]

lemma slice_last {α : Type} (pre mid : List α) {i k : Nat}
    (hpre : pre.length = i) (hmid : mid.length = k) :
    ((pre ++ mid).drop i).take k = mid := by
  rw [drop_of_append _ _ hpre, take_of_length _ hmid]

/-- Running `extractJA4HSignals` on any string that splits into a 12-character
part A followed by further parts: every positional field is decoded. -/
lemma extractJA4HSignals_parts (s0 : Signals) (fp : Fingerprint) (ja4h A : String)
    (rest : List String) (hsp : splitStr '_' ja4h = A :: rest) (hA : A.length = 12) :
    extractJA4HSignals s0 ja4h fp =
      { s0 with
        JA4HIsHTTP2 := substr A 2 4 == "20" || substr A 2 4 == "30",
        JA4HHasCookies := substr A 4 5 == "c",
        JA4HHasReferer := substr A 5 6 == "r",
        JA4HLowHeaderCount := decide (parseHeaderCount (substr A 6 8) < 5),
        JA4HHighHeaderCount := decide (parseHeaderCount (substr A 6 8) ≥ 10),
        JA4HLanguageCode := substr A 8 12,
        JA4HMissingLanguage := substr A 8 12 == "0000",
        JA4HConsistentSignal := checkJA4HConsistency
          { s0 with
            JA4HIsHTTP2 := substr A 2 4 == "20" || substr A 2 4 == "30",
            JA4HHasCookies := substr A 4 5 == "c",
            JA4HHasReferer := substr A 5 6 == "r",
            JA4HLowHeaderCount := decide (parseHeaderCount (substr A 6 8) < 5),
            JA4HHighHeaderCount := decide (parseHeaderCount (substr A 6 8) ≥ 10),
            JA4HLanguageCode := substr A 8 12,
            JA4HMissingLanguage := substr A 8 12 == "0000" } fp } := by
  simp only [extractJA4HSignals, hsp, List.headD_cons, List.length_cons, hA]
  norm_num

set_option maxHeartbeats 1000000 in
/-- Running `extractJA4HSignals` on an encoder-produced string whose method code
and language code are underscore-free: part A is recovered field by
field. -/
lemma extractJA4HSignals_roundtrip (s0 : Signals) (fp : Fingerprint) (r : Request)
    (hm : '_' ∉ (httpMethodCode r.Method).data)
    (hl : '_' ∉ (languageCode r.headers).data) :
    extractJA4HSignals s0 (JA4H r) fp =
      { s0 with
        JA4HIsHTTP2 := httpVersionCode r.Proto == "20" || httpVersionCode r.Proto == "30",
        JA4HHasCookies := cookieFlag r == "c",
        JA4HHasReferer := refererFlag r == "r",
        JA4HLowHeaderCount := decide (parseHeaderCount (fmt02d (countHeaders r.headers)) < 5),
        JA4HHighHeaderCount := decide (parseHeaderCount (fmt02d (countHeaders r.headers)) ≥ 10),
        JA4HLanguageCode := languageCode r.headers,
        JA4HMissingLanguage := languageCode r.headers == "0000",
        JA4HConsistentSignal := checkJA4HConsistency
          { s0 with
            JA4HIsHTTP2 := httpVersionCode r.Proto == "20" || httpVersionCode r.Proto == "30",
            JA4HHasCookies := cookieFlag r == "c",
            JA4HHasReferer := refererFlag r == "r",
            JA4HLowHeaderCount := decide (parseHeaderCount (fmt02d (countHeaders r.headers)) < 5),
            JA4HHighHeaderCount := decide (parseHeaderCount (fmt02d (countHeaders r.headers)) ≥ 10),
            JA4HLanguageCode := languageCode r.headers,
            JA4HMissingLanguage := languageCode r.headers == "0000" } fp } := by
  -- component shapes
  have hmmLen : (httpMethodCode r.Method).data.length = 2 := by
    have := methodCode_length r.Method
    rwa [strLength_eq] at this
  have hvvLen : (httpVersionCode r.Proto).data.length = 2 := by
    rcases versionCode_cases r.Proto with h | h | h <;> rw [h] <;> rfl
  have hvvMem : '_' ∉ (httpVersionCode r.Proto).data := by
    rcases versionCode_cases r.Proto with h | h | h <;> rw [h] <;> decide
  have hccLen : (cookieFlag r).data.length = 1 := by
    rcases cookieFlag_cases r with h | h <;> rw [h] <;> rfl
  have hccMem : '_' ∉ (cookieFlag r).data := by
    rcases cookieFlag_cases r with h | h <;> rw [h] <;> decide
  have hrrLen : (refererFlag r).data.length = 1 := by
    rcases refererFlag_cases r with h | h <;> rw [h] <;> rfl
  have hrrMem : '_' ∉ (refererFlag r).data := by
    rcases refererFlag_cases r with h | h <;> rw [h] <;> decide
  have hcnt := countHeaders_le r.headers
  have hddFacts := fmt02d_facts (countHeaders r.headers) hcnt
  have hddLen : (fmt02d (countHeaders r.headers)).data.length = 2 := by
    have := hddFacts.1
    rwa [strLength_eq] at this
  have hddMem : '_' ∉ (fmt02d (countHeaders r.headers)).data := hddFacts.2.1
  have hllLen : (languageCode r.headers).data.length = 4 := by
    have := languageCode_length r.headers
    rwa [strLength_eq] at this
  -- part A decomposition
  have hAdata : (JA4H_a r).data
      = (httpMethodCode r.Method).data ++ ((httpVersionCode r.Proto).data
        ++ ((cookieFlag r).data ++ ((refererFlag r).data
        ++ ((fmt02d (countHeaders r.headers)).data ++ (languageCode r.headers).data)))) := by
    simp [JA4H_a, strData_append, List.append_assoc]
  have hAlen : (JA4H_a r).data.length = 12 := by
    rw [hAdata]
    simp only [List.length_append]
    omega
  have hAMem : '_' ∉ (JA4H_a r).data := by
    rw [hAdata]
    simp only [List.mem_append, not_or]
    exact ⟨hm, hvvMem, hccMem, hrrMem, hddMem, hl⟩
  -- the full string splits as part A followed by the hash parts
  have hJdata : (JA4H r).data = (JA4H_a r).data
      ++ '_' :: ((JA4H_b r).data ++ '_' :: ((JA4H_c r).data ++ '_' :: (JA4H_d r).data)) := by
    simp [JA4H, strData_append, List.append_assoc]
  have hsplit : splitStr '_' (JA4H r)
      = JA4H_a r :: (splitChar '_'
          ((JA4H_b r).data ++ '_' :: ((JA4H_c r).data ++ '_' :: (JA4H_d r).data))).map
            (fun l => ⟨l⟩) := by
    simp only [splitStr, hJdata, splitChar_append _ _ _ hAMem, List.map_cons, strMk_data]
  -- the five positional slices
  have hv : substr (JA4H_a r) 2 4 = httpVersionCode r.Proto := by
    have h4 : (JA4H_a r).data
        = (httpMethodCode r.Method).data ++ ((httpVersionCode r.Proto).data
          ++ ((cookieFlag r).data ++ ((refererFlag r).data
          ++ ((fmt02d (countHeaders r.headers)).data ++ (languageCode r.headers).data)))) :=
      hAdata
    simp only [substr, h4, Nat.reduceSub]
    rw [slice_middle _ _ _ hmmLen hvvLen]
  have hc : substr (JA4H_a r) 4 5 = cookieFlag r := by
    have h4 : (JA4H_a r).data
        = ((httpMethodCode r.Method).data ++ (httpVersionCode r.Proto).data)
          ++ ((cookieFlag r).data ++ ((refererFlag r).data
          ++ ((fmt02d (countHeaders r.headers)).data ++ (languageCode r.headers).data))) := by
      simp [JA4H_a, strData_append, List.append_assoc]
    simp only [substr, h4, Nat.reduceSub]
    rw [slice_middle _ _ _ (by simp only [List.length_append]; omega) hccLen]
  have hr : substr (JA4H_a r) 5 6 = refererFlag r := by
    have h4 : (JA4H_a r).data
        = ((httpMethodCode r.Method).data ++ ((httpVersionCode r.Proto).data
            ++ (cookieFlag r).data))
          ++ ((refererFlag r).data
          ++ ((fmt02d (countHeaders r.headers)).data ++ (languageCode r.headers).data)) := by
      simp [JA4H_a, strData_append, List.append_assoc]
    simp only [substr, h4, Nat.reduceSub]
    rw [slice_middle _ _ _ (by simp only [List.length_append]; omega) hrrLen]
  have hd : substr (JA4H_a r) 6 8 = fmt02d (countHeaders r.headers) := by
    have h4 : (JA4H_a r).data
        = ((httpMethodCode r.Method).data ++ ((httpVersionCode r.Proto).data
            ++ ((cookieFlag r).data ++ (refererFlag r).data)))
          ++ ((fmt02d (countHeaders r.headers)).data ++ (languageCode r.headers).data) := by
      simp [JA4H_a, strData_append, List.append_assoc]
    simp only [substr, h4, Nat.reduceSub]
    rw [slice_middle _ _ _ (by simp only [List.length_append]; omega) hddLen]
  have hlg : substr (JA4H_a r) 8 12 = languageCode r.headers := by
    have h4 : (JA4H_a r).data
        = ((httpMethodCode r.Method).data ++ ((httpVersionCode r.Proto).data
            ++ ((cookieFlag r).data ++ ((refererFlag r).data
            ++ (fmt02d (countHeaders r.headers)).data))))
          ++ (languageCode r.headers).data := by
      simp [JA4H_a, strData_append, List.append_assoc]
    simp only [substr, h4, Nat.reduceSub]
    rw [slice_last _ _ (by simp only [List.length_append]; omega) hllLen]
  -- now run the parser
  rw [extractJA4HSignals_parts s0 fp (JA4H r) (JA4H_a r) _ hsplit (by rw [strLength_eq, hAlen])]
  simp only [hv, hc, hr, hd, hlg]

lemma JA4H_ne_empty (r : Request) : JA4H r ≠ "" := by
  intro h
  have hd := congrArg String.data h
  simp [JA4H, strData_append] at hd

set_option maxHeartbeats 1000000 in
/-- C7, amended.  Round-trip: whenever neither the 2-character
method code nor the 4-character language code contains an underscore,
the part-A positional parser applied to the encoder's output recovers
exactly the version class, cookie flag, referer flag, header-count
class and language values used to construct the string: the derived
HTTP/2 flag holds iff the encoded version code was "20" or "30", the
cookie/referer flags match the encoded flags, the low/high
header-count signals match the clamped header count, and the language
code (and its missing-language signal) match the encoded language
code. -/
theorem ja4h_roundtrip (r : Request) (fp : Fingerprint)
    (hfp : fp.HTTP.JA4HHash = JA4H r)
    (hm : '_' ∉ (httpMethodCode r.Method).data)
    (hl : '_' ∉ (languageCode r.headers).data) :
    ((ExtractSignals fp).JA4HIsHTTP2 = true
        ↔ (httpVersionCode r.Proto = "20" ∨ httpVersionCode r.Proto = "30")) ∧
    ((ExtractSignals fp).JA4HHasCookies = true ↔ r.cookies ≠ []) ∧
    ((ExtractSignals fp).JA4HHasReferer = true ↔ getHeader r.headers "Referer" ≠ "") ∧
    ((ExtractSignals fp).JA4HLowHeaderCount = true ↔ countHeaders r.headers < 5) ∧
    ((ExtractSignals fp).JA4HHighHeaderCount = true ↔ 10 ≤ countHeaders r.headers) ∧
    (ExtractSignals fp).JA4HLanguageCode = languageCode r.headers ∧
    ((ExtractSignals fp).JA4HMissingLanguage = true ↔ languageCode r.headers = "0000") := by
  have hparse : parseHeaderCount (fmt02d (countHeaders r.headers)) = countHeaders r.headers :=
    (fmt02d_facts (countHeaders r.headers) (countHeaders_le r.headers)).2.2
  have hb : ((JA4H r != "") = true) := by
    simp [bne_iff_ne, JA4H_ne_empty r]
  simp only [ExtractSignals, hfp]
  rw [if_pos hb]
  rw [extractJA4HSignals_roundtrip _ fp r hm hl]
  refine ⟨?_, ?_, ?_, ?_, ?_, ?_, ?_⟩
  · simp [Bool.or_eq_true, beq_iff_eq]
  · simp only [cookieFlag]
    split_ifs with h
    · simp only [beq_self_eq_true, true_iff]
      intro hnil
      rw [hnil] at h
      simp at h
    · simp only [not_lt, Nat.le_zero, List.length_eq_zero] at h
      simp [h]
  · simp only [refererFlag]
    split_ifs with h <;> simp [h]
  · simp [hparse]
  · simp [hparse]
  · simp
  · simp [beq_iff_eq]

/-- A request whose `Accept-Language` contains an underscore, so that
the encoded language code does too. -/
def reqLang : Request :=
  { Method := "GET", Proto := "HTTP/1.1",
    headers := [("Accept-Language", "en_US")], cookies := [] }

def httpLang : HTTPFingerprint := { JA4HHash := JA4H reqLang }

def fpLang : Fingerprint := { HTTP := httpLang }

set_option maxRecDepth 8000 in
/-- C7, counterexample.  The round-trip fails as universally stated:
for `Accept-Language: en_US` the language code is `"en_u"`, part A
becomes `"ge11nn01en_u"`, the underscore makes the first
underscore-separated segment 10 characters long, the defensive guard
fires, and every JA4H-derived signal is absent — in particular the
parsed language code is `""`, not the `"en_u"` used to construct the
string, and the low-header-count signal is false although the encoded
header count 1 is below 5. -/
theorem ja4h_roundtrip_cex :
    languageCode reqLang.headers = "en_u" ∧
    (ExtractSignals fpLang).JA4HLanguageCode = "" ∧
    (ExtractSignals fpLang).JA4HLanguageCode ≠ languageCode reqLang.headers ∧
    (ExtractSignals fpLang).JA4HLowHeaderCount = false ∧
    countHeaders reqLang.headers < 5 := by
  refine ⟨by decide, by decide, by decide, by decide, by decide⟩

/-- The curl request of the spec's scenario: `GET`, `HTTP/1.1`,
`User-Agent: curl/8.0.1`, `Accept: */*`, no other headers. -/
def reqCurl : Request :=
  { Method := "GET", Proto := "HTTP/1.1",
    headers := [("User-Agent", "curl/8.0.1"), ("Accept", "*/*")], cookies := [] }

/-- The fingerprint the collector builds for `reqCurl`: no TLS data, the
HTTP fields copied from the request, and (per §3 of the spec, the
collector attaches the computed JA4H fingerprint string of §4.2) the
JA4H encoding of the request. -/
def httpCurl : HTTPFingerprint :=
  { Version := "HTTP/1.1", Method := "GET", HeaderCount := 2,
    UserAgent := "curl/8.0.1", Accept := "*/*", JA4HHash := JA4H reqCurl }

def fpCurl : Fingerprint := { HTTP := httpCurl }

/-- As `fpCurl` but without an attached JA4H string (the wiring of the
JA4H hash into the collector is outside the embedded sources, so the
scenario is checked both with and without it). -/
def httpCurlNoJA4H : HTTPFingerprint :=
  { Version := "HTTP/1.1", Method := "GET", HeaderCount := 2,
    UserAgent := "curl/8.0.1", Accept := "*/*" }

def fpCurlNoJA4H : Fingerprint := { HTTP := httpCurlNoJA4H }

/-- C7, witness: the amended round-trip at the concrete curl
request and its collected fingerprint. -/
theorem ja4h_roundtrip_witness :
    ((ExtractSignals fpCurl).JA4HIsHTTP2 = true
        ↔ (httpVersionCode reqCurl.Proto = "20" ∨ httpVersionCode reqCurl.Proto = "30")) ∧
    ((ExtractSignals fpCurl).JA4HHasCookies = true ↔ reqCurl.cookies ≠ []) ∧
    ((ExtractSignals fpCurl).JA4HHasReferer = true
        ↔ getHeader reqCurl.headers "Referer" ≠ "") ∧
    ((ExtractSignals fpCurl).JA4HLowHeaderCount = true ↔ countHeaders reqCurl.headers < 5) ∧
    ((ExtractSignals fpCurl).JA4HHighHeaderCount = true
        ↔ 10 ≤ countHeaders reqCurl.headers) ∧
    (ExtractSignals fpCurl).JA4HLanguageCode = languageCode reqCurl.headers ∧
    ((ExtractSignals fpCurl).JA4HMissingLanguage = true
        ↔ languageCode reqCurl.headers = "0000") :=
  ja4h_roundtrip reqCurl fpCurl rfl (by decide) (by decide)


set_option maxRecDepth 8000 in
/-- C9.  The curl scenario: under the default threshold 0 the
pipeline classifies the request as a bot, with net score
`browserScore − botScore` strictly negative — whether or not the JA4H
string is attached to the fingerprint. -/
theorem curl_classified_bot :
    (Classify defaultThreshold fpCurl).Classification = ClassificationBot ∧
    (Classify defaultThreshold fpCurl).Score < 0 ∧
    (Classify defaultThreshold fpCurl).Score
      = (ExtractSignals fpCurl).BrowserScore - (ExtractSignals fpCurl).BotScore ∧
    (Classify defaultThreshold fpCurlNoJA4H).Classification = ClassificationBot ∧
    (Classify defaultThreshold fpCurlNoJA4H).Score < 0 := by
  refine ⟨by decide, by decide, by decide, by decide, by decide⟩

/-- The confidence formula exactly as the spec's §4.5 pseudocode states
it, over exact rationals (`1.2 = 6/5`, `0.8 = 4/5`, `0.49 = 49/100`,
`0.99 = 99/100`). -/
def confidenceSpec (browserScore botScore netScore : Int) : ℚ :=
  let totalSignals := browserScore + botScore
  if totalSignals = 0 then 1/2
  else
    let base : ℚ := |(netScore : ℚ)| / (totalSignals : ℚ)
    let base := if totalSignals ≥ 5 then min (base * (6/5)) 1
      else if totalSignals < 3 then base * (4/5)
      else base
    max (1/2) (min (99/100) (1/2 + base * (49/100)))

/-- C6.  For every signal record, `calculateConfidence` at
`netScore = browserScore − botScore` equals the spec's formula, and the
result always lies in `[0.50, 0.99]`.  (`float64` is modelled as exact
rational arithmetic.) -/
theorem calculateConfidence_spec (s : Signals) :
    calculateConfidence s (s.BrowserScore - s.BotScore)
        = confidenceSpec s.BrowserScore s.BotScore (s.BrowserScore - s.BotScore) ∧
      1/2 ≤ calculateConfidence s (s.BrowserScore - s.BotScore) ∧
      calculateConfidence s (s.BrowserScore - s.BotScore) ≤ 99/100 := by
  have habs : (((if s.BrowserScore - s.BotScore < 0 then -(s.BrowserScore - s.BotScore)
        else s.BrowserScore - s.BotScore) : Int) : ℚ)
      = |((s.BrowserScore - s.BotScore : Int) : ℚ)| := by
    split
    · rw [abs_of_neg (by exact_mod_cast ‹s.BrowserScore - s.BotScore < 0›)]
      push_cast
      ring
    · rw [abs_of_nonneg (by exact_mod_cast le_of_not_lt ‹¬s.BrowserScore - s.BotScore < 0›)]
  refine ⟨?_, ?_, ?_⟩
  · simp only [calculateConfidence, confidenceSpec]
    rw [habs]
  · simp only [calculateConfidence]
    rcases eq_or_ne (s.BrowserScore + s.BotScore) 0 with h0 | h0
    · rw [if_pos h0]
    · rw [if_neg h0]
      exact le_max_left _ _
  · simp only [calculateConfidence]
    rcases eq_or_ne (s.BrowserScore + s.BotScore) 0 with h0 | h0
    · rw [if_pos h0]
      norm_num
    · rw [if_neg h0]
      exact max_le (by norm_num) (min_le_left _ _)

end GoClassifier
